import Mathlib

/-!
Verification development for the `ghg-calculator` repository.

The repository's presentation layers (`cli/app.py`, `reporting/charts.py`,
`reporting/generator.py`) are embedded from their sources.  The calculation
core (unit converter, GWP table, factor registry, calculation engine,
inventory aggregator) is not shipped in the source tree; those components
are modelled from the specification, as marked in the doc comments below.
Real-valued quantities are embedded as rationals, so "equal within floating
tolerance" claims become exact equalities that imply any tolerance bound.
-/

namespace GhgCalc

/-- GHG Protocol scope (spec §3: scope ∈ {1,2,3}). -/
inductive Scope
  | scope1
  | scope2
  | scope3
deriving DecidableEq, Repr

/-- Scope 1 closed category set (spec §3/§9: combustion, fugitive, process). -/
inductive Scope1Category
  | stationaryCombustion
  | mobileCombustion
  | fugitive
  | process
deriving DecidableEq, Repr

/-- The two Scope 2 accounting methods (spec glossary). -/
inductive Scope2Method
  | locationBased
  | marketBased
deriving DecidableEq, Repr

/-- The two supported GWP assessment report versions (spec §4.2). -/
inductive GWPAssessment
  | ar5
  | ar6
deriving DecidableEq, Repr

/-- The string value of an assessment, as the CLI passes it (`ar5`/`ar6`). -/
def assessmentLabel : GWPAssessment → String
  | .ar5 => "ar5"
  | .ar6 => "ar6"

/-- Modelled from the spec: the GWP Table (§4.2), `gas → characterization
factor` partitioned by assessment version; the concrete table module
(`factors/gwp.py`) is not in the source tree.  Values pinned by the spec:
CH4 ≈ 28 (AR5) vs ≈ 27.9 (AR6), N2O = 265 (AR5, quoted in the report
methodology), `get_gwp("hfc-134a", AR5) == 1300`; CO2 = 1 in both. -/
def gwpTable : GWPAssessment → String → Option ℚ
  | .ar5, "co2" => some 1
  | .ar5, "ch4" => some 28
  | .ar5, "n2o" => some 265
  | .ar5, "hfc-134a" => some 1300
  | .ar6, "co2" => some 1
  | .ar6, "ch4" => some (279/10)
  | .ar6, "n2o" => some 273
  | .ar6, "hfc-134a" => some 1526
  | _, _ => none

/-- Dimension families of physical units (spec §4.1). -/
inductive Dimension
  | energy
  | volume
  | mass
deriving DecidableEq, Repr

/-- The unit vocabulary the spec requires at minimum (§4.1). -/
inductive PhysUnit
  | therm
  | kWh
  | mj
  | mmbtu
  | gj
  | gallon
  | liter
  | cubicMeter
  | kg
  | shortTon
  | tonne
  | lb
deriving DecidableEq, Repr

/-- Modelled from the spec: the dimension family of each unit (§4.1); the
converter module (`units/converter.py`) is not in the source tree. -/
def dimension : PhysUnit → Dimension
  | .therm => .energy
  | .kWh => .energy
  | .mj => .energy
  | .mmbtu => .energy
  | .gj => .energy
  | .gallon => .volume
  | .liter => .volume
  | .cubicMeter => .volume
  | .kg => .mass
  | .shortTon => .mass
  | .tonne => .mass
  | .lb => .mass

/-- Modelled from the spec: the multiplicative factor from a unit to the
common base unit of its dimension family (§4.1: conversion is linear within
a family via a common base unit; bases chosen as kWh / liter / kg). -/
def toBase : PhysUnit → ℚ
  | .therm => 293001 / 10000
  | .kWh => 1
  | .mj => 5 / 18
  | .mmbtu => 293071 / 1000
  | .gj => 2500 / 9
  | .gallon => 378541 / 100000
  | .liter => 1
  | .cubicMeter => 1000
  | .kg => 1
  | .shortTon => 907185 / 1000
  | .tonne => 1000
  | .lb => 453592 / 1000000

/-- Error raised on a cross-dimension conversion request (spec §4.1/§7). -/
inductive ConvError
  | dimensionMismatch
deriving DecidableEq, Repr

/-- Modelled from the spec: `convert(value, from_unit, to_unit)` (§4.1) —
linear conversion through the family's base unit, failing with
`DimensionMismatch` when the units belong to different families. -/
def convert (v : ℚ) (fromU toU : PhysUnit) : Except ConvError ℚ :=
  if dimension fromU = dimension toU then
    .ok (v * toBase fromU / toBase toU)
  else
    .error .dimensionMismatch

/-- Enumerated factor provenance (spec §3; the report methodology lists
EPA Hub, eGRID, DEFRA, USEEIO, Ember, EXIOBASE). -/
inductive FactorSource
  | epa
  | egrid
  | defra
  | useeio
  | ember
  | exiobase
deriving DecidableEq, Repr

/-- One per-gas coefficient of an emission factor: mass of the gas emitted
per normalized activity unit (spec §3/§4.4). -/
structure GasCoef where
  gas : String
  coef : ℚ
deriving DecidableEq, Repr

/-- A factor declares either a single combined CO2e coefficient or a list of
per-gas coefficients (spec §3 invariant). -/
inductive FactorValue
  | combined (co2ePerUnit : ℚ)
  | perGas (coeffs : List GasCoef)
deriving DecidableEq, Repr

/-- Modelled from the spec: an Emission Factor catalog entry (§3); the
`models`/`factors` modules are not in the source tree. -/
structure EmissionFactor where
  id : String
  name : String
  source : FactorSource
  activity_unit : PhysUnit
  value : FactorValue
deriving DecidableEq, Repr

/-- Modelled from the spec: an Activity input record (§3); field names follow
`ActivityRecord` as constructed in `cli/app.py`. -/
structure ActivityRecord where
  scope : Scope
  scope1_category : Option Scope1Category := none
  scope3_category : Option Nat := none
  scope2_method : Option Scope2Method := none
  quantity : ℚ
  unit : PhysUnit
  fuel_type : Option String := none
  custom_fuel : Option String := none
  grid_subregion : Option String := none
  country : Option String := none
  custom_factor : Option ℚ := none
  refrigerant_type : Option String := none
  id : Option String := none
  name : Option String := none
deriving DecidableEq, Repr

/-- Gas Breakdown Entry (spec §3): gas identifier, mass in kg, GWP value
applied, resulting CO2e kg. -/
structure GasBreakdownEntry where
  gas : String
  mass_kg : ℚ
  gwp_used : ℚ
  co2e_kg : ℚ
deriving DecidableEq, Repr

/-- Emission Result (spec §3); field names follow the attribute accesses in
`cli/app.py` and `reporting/charts.py`. -/
structure EmissionResult where
  scope : Scope
  scope1_category : Option Scope1Category := none
  scope3_category : Option Nat := none
  scope2_method : Option Scope2Method := none
  total_co2e_kg : ℚ
  total_co2e_tonnes : ℚ
  gas_breakdown : List GasBreakdownEntry := []
  factor_id : Option String := none
  factor_source : Option FactorSource := none
  notes : List String := []
  activity_id : Option String := none
  activity_name : Option String := none
deriving DecidableEq, Repr

/-- Errors of the calculation engine (spec §7 taxonomy). -/
inductive CalcError
  | factorResolution (scope : Scope) (category : Option String) (unit : PhysUnit)
  | dimensionMismatch
  | unknownGas (gas : String)
deriving DecidableEq, Repr

/-- The CLI string value of each Scope 1 category (`Scope1Category(category)`
parses these strings in `cli/app.py`). -/
def scope1CategoryValue : Scope1Category → String
  | .stationaryCombustion => "stationary_combustion"
  | .mobileCombustion => "mobile_combustion"
  | .fugitive => "fugitive"
  | .process => "process"

/-- Category description used when naming an unresolvable combination
(spec §4.4 step 3). -/
def categoryName (act : ActivityRecord) : Option String :=
  match act.scope1_category with
  | some c => some (scope1CategoryValue c)
  | none =>
    match act.scope3_category with
    | some n => some (toString n)
    | none => none

/-- Sum of the CO2e kilograms over a gas breakdown. -/
def sumCo2e (es : List GasBreakdownEntry) : ℚ :=
  (es.map (fun e => e.co2e_kg)).sum

/-- Modelled from the spec: per-gas weighting (§4.4) — for each declared gas,
`gas_mass_kg = normalized_quantity * gas_coefficient`, weighted by the GWP of
that gas under the chosen assessment; an unknown gas fails the calculation. -/
def gasEntries (a : GWPAssessment) (nq : ℚ) : List GasCoef → Except CalcError (List GasBreakdownEntry)
  | [] => .ok []
  | gc :: rest =>
    match gwpTable a gc.gas with
    | none => .error (.unknownGas gc.gas)
    | some w =>
      match gasEntries a nq rest with
      | .error e => .error e
      | .ok es => .ok (⟨gc.gas, nq * gc.coef, w, nq * gc.coef * w⟩ :: es)

/-- Intermediate output of the factor-based calculation path. -/
structure CoreOut where
  total_kg : ℚ
  breakdown : List GasBreakdownEntry
  factor_id : Option String
  factor_source : Option FactorSource
  notes : List String
deriving DecidableEq, Repr

/-- Modelled from the spec: resolution order and arithmetic of §4.4 — (1) a
caller-supplied override is used directly as a combined CO2e-per-unit factor
with the registry skipped and no factor id/source recorded; (2) otherwise the
registry's `resolve_for_activity` result is applied after normalizing the
quantity into the factor's unit; (3) with no factor and no override the
calculation fails with `FactorResolutionError` naming scope/category/unit. -/
def computeCore (resolve : ActivityRecord → Option EmissionFactor)
    (a : GWPAssessment) (act : ActivityRecord) : Except CalcError CoreOut :=
  match act.custom_factor with
  | some c => .ok ⟨act.quantity * c, [], none, none, []⟩
  | none =>
    match resolve act with
    | none => .error (.factorResolution act.scope (categoryName act) act.unit)
    | some f =>
      match convert act.quantity act.unit f.activity_unit with
      | .error _ => .error .dimensionMismatch
      | .ok nq =>
        match f.value with
        | .combined c => .ok ⟨nq * c, [], some f.id, some f.source, []⟩
        | .perGas cs =>
          match gasEntries a nq cs with
          | .error e => .error e
          | .ok es => .ok ⟨sumCo2e es, es, some f.id, some f.source, []⟩

/-- The refrigerant identifier of a Scope 1 fugitive-category activity, and
`none` for every activity the refrigerant-leakage rule does not govern
(spec §4.4 special-case rules). -/
def refrigerantOf (act : ActivityRecord) : Option String :=
  if act.scope = .scope1 ∧ act.scope1_category = some .fugitive then
    act.refrigerant_type
  else
    none

/-- Assemble an Emission Result from an activity and computed fields
(spec §3: tonnes = kilograms / 1000; back-references to the activity). -/
def mkResult (act : ActivityRecord) (method : Option Scope2Method) (total : ℚ)
    (breakdown : List GasBreakdownEntry) (fid : Option String)
    (fsrc : Option FactorSource) (notes : List String) : EmissionResult :=
  { scope := act.scope
    scope1_category := act.scope1_category
    scope3_category := act.scope3_category
    scope2_method := method
    total_co2e_kg := total
    total_co2e_tonnes := total / 1000
    gas_breakdown := breakdown
    factor_id := fid
    factor_source := fsrc
    notes := notes
    activity_id := act.id
    activity_name := act.name }

/-- Modelled from the spec: `calculate_single(activity)` (§4.4) — the
refrigerant-leakage rule applies the refrigerant's own GWP directly to the
leaked mass with no per-unit factor lookup; otherwise the factor path runs,
and a Scope 2 activity that does not pin a method yields both a
location-based and a market-based Result (market-based defaulting to the
location-based factor with a note). -/
def calculate_single (resolve : ActivityRecord → Option EmissionFactor)
    (a : GWPAssessment) (act : ActivityRecord) :
    Except CalcError (List EmissionResult) :=
  match refrigerantOf act with
  | some rg =>
    match gwpTable a rg with
    | none => .error (.unknownGas rg)
    | some g =>
      .ok [mkResult act none (act.quantity * g)
            [⟨rg, act.quantity, g, act.quantity * g⟩] none none []]
  | none =>
    match computeCore resolve a act with
    | .error e => .error e
    | .ok out =>
      if act.scope = .scope2 ∧ act.scope2_method = none then
        .ok [ mkResult act (some .locationBased) out.total_kg out.breakdown
                out.factor_id out.factor_source out.notes,
              mkResult act (some .marketBased) out.total_kg out.breakdown
                out.factor_id out.factor_source
                (out.notes ++ ["market-based defaults to location-based factor"]) ]
      else
        .ok [ mkResult act (if act.scope = .scope2 then act.scope2_method else none)
                out.total_kg out.breakdown out.factor_id out.factor_source out.notes ]

/-- Sub-total view of an inventory: total tonnes plus the matching Results
(`inventory.scope1.total_co2e_tonnes`, `inventory.scope1.results` in
`reporting/charts.py`). -/
structure ScopeSummary where
  total_co2e_tonnes : ℚ
  results : List EmissionResult
deriving DecidableEq, Repr

/-- Inventory of many Emission Results (spec §3), with the fields the report
layer reads (`scope1`, `scope2_location`, `scope2_market`, `scope3`,
`all_results`, `total_co2e_tonnes`, `year`). -/
structure InventoryResult where
  scope1 : ScopeSummary
  scope2_location : ScopeSummary
  scope2_market : ScopeSummary
  scope3 : ScopeSummary
  all_results : List EmissionResult
  total_co2e_tonnes : ℚ
  year : Option Int := none
deriving DecidableEq, Repr

/-- Sum of `total_co2e_tonnes` over a list of Results. -/
def sumTonnes (rs : List EmissionResult) : ℚ :=
  (rs.map (fun r => r.total_co2e_tonnes)).sum

/-- Modelled from the spec: `aggregate(results) -> Inventory` (§4.5/§3) —
plain sums of tonnes over the scope/method predicates, `all_results`
preserving input order, and the grand total folding in the Scope 2
location-based sub-total (not market-based). -/
def aggregate (rs : List EmissionResult) (year : Option Int) : InventoryResult :=
  let s1 := rs.filter (fun r => decide (r.scope = .scope1))
  let s2l := rs.filter (fun r =>
    decide (r.scope = .scope2 ∧ r.scope2_method = some .locationBased))
  let s2m := rs.filter (fun r =>
    decide (r.scope = .scope2 ∧ r.scope2_method = some .marketBased))
  let s3 := rs.filter (fun r => decide (r.scope = .scope3))
  { scope1 := ⟨sumTonnes s1, s1⟩
    scope2_location := ⟨sumTonnes s2l, s2l⟩
    scope2_market := ⟨sumTonnes s2m, s2m⟩
    scope3 := ⟨sumTonnes s3, s3⟩
    all_results := rs
    total_co2e_tonnes := sumTonnes s1 + sumTonnes s2l + sumTonnes s3
    year := year }

/-- Fail-fast calculation over a batch of activities (spec §4.4: the first
failing Activity fails the whole run). -/
def calcAll (resolve : ActivityRecord → Option EmissionFactor)
    (a : GWPAssessment) : List ActivityRecord → Except CalcError (List EmissionResult)
  | [] => .ok []
  | act :: rest =>
    match calculate_single resolve a act with
    | .error e => .error e
    | .ok rs =>
      match calcAll resolve a rest with
      | .error e => .error e
      | .ok rest' => .ok (rs ++ rest')

/-- Modelled from the spec: `calculate_inventory(activities, name)` (§4.4),
aggregating all Results of a fail-fast batch run. -/
def calculate_inventory (resolve : ActivityRecord → Option EmissionFactor)
    (a : GWPAssessment) (acts : List ActivityRecord) (year : Option Int) :
    Except CalcError InventoryResult :=
  match calcAll resolve a acts with
  | .error e => .error e
  | .ok rs => .ok (aggregate rs year)

/-! ### Report layer, embedded from `reporting/charts.py` and
`reporting/generator.py` -/

/-- Modelled from the spec: the `.value` string of the Scope enum, used by
the chart labels (`f"{r.scope.value}"`); the enums module is not in the
source tree. -/
def scopeValue : Scope → String
  | .scope1 => "scope_1"
  | .scope2 => "scope_2"
  | .scope3 => "scope_3"

/-- Python truthiness of an optional string: `None` and `""` are falsy. -/
def pyStr (s : Option String) : Option String :=
  match s with
  | some s => if s.isEmpty then none else some s
  | none => none

/-- The label of a result in `top_sources_bar` (charts.py line 460):
`r.activity_name or r.activity_id or f"{r.scope.value}"`. -/
def pyLabel (r : EmissionResult) : String :=
  match pyStr r.activity_name with
  | some n => n
  | none =>
    match pyStr r.activity_id with
    | some i => i
    | none => scopeValue r.scope

/-- Label truncation of `top_sources_bar` (charts.py lines 462-463). -/
def truncLabel (s : String) : String :=
  if 60 < s.length then s.take 57 ++ "..." else s

/-- The `source_data` list built by `top_sources_bar` (charts.py lines
456-464): every result of the inventory except those whose
`scope2_method` is market-based, paired with its tonnes. -/
def topSourcesSourceData (inv : InventoryResult) : List (String × ℚ) :=
  inv.all_results.filterMap fun r =>
    if r.scope2_method = some .marketBased then none
    else some (truncLabel (pyLabel r), r.total_co2e_tonnes)

/-- Insertion-ordered dictionary accumulation: add `t` to the entry for
`lbl`, appending a new entry when absent (Python `dict.get(k, 0) + v`). -/
def addTo (ps : List (String × ℚ)) (lbl : String) (t : ℚ) : List (String × ℚ) :=
  match ps with
  | [] => [(lbl, t)]
  | p :: rest => if p.1 = lbl then (p.1, p.2 + t) :: rest else p :: addTo rest lbl t

/-- The duplicate-merging dictionary of `top_sources_bar`
(charts.py lines 467-469). -/
def groupSum (ps : List (String × ℚ)) : List (String × ℚ) :=
  ps.foldl (fun acc p => addTo acc p.1 p.2) []

/-- eGRID subregion codes recognized by `emissions_map`
(keys of `_EGRID_COORDS`, charts.py lines 231-246). -/
def egridCodes : List String :=
  ["AKGD", "AKMS", "AZNM", "CAMX", "ERCT", "FRCC", "HIMS", "HIOA",
   "MROE", "MROW", "NEWE", "NWPP", "NYCW", "NYLI", "NYUP", "PRMS",
   "RFCE", "RFCM", "RFCW", "RMPA", "SPNO", "SPSO", "SRMV", "SRMW",
   "SRSO", "SRTV", "SRVC"]

/-- Country ISO codes recognized by `emissions_map`
(keys of `_COUNTRY_COORDS`, charts.py lines 249-266). -/
def countryCodes : List String :=
  ["US", "GB", "DE", "FR", "JP", "CN", "IN", "BR", "AU", "CA", "KR",
   "IT", "ES", "MX", "RU", "ZA", "SE", "NO", "DK", "FI", "PL", "NL",
   "BE", "AT", "CH", "IE", "PT", "CZ", "GR", "SA", "AE", "SG", "IS",
   "NZ", "CL", "AR", "CO", "TH", "VN", "ID", "PH", "MY", "TW", "IL",
   "EG", "NG", "KE"]

/-- Python's `str.upper()` on the character sequence of a string (the
core library's `String.toUpper` is extensionally this map; this form
reduces in the kernel). -/
def pyUpper (s : String) : String := ⟨s.data.map Char.toUpper⟩

/-- The country branch of the location dispatch in `emissions_map`
(charts.py lines 290-292). -/
def countryLabel (act : ActivityRecord) : Option String :=
  match pyStr act.country with
  | some c => if countryCodes.contains (pyUpper c) then some (pyUpper c) else none
  | none => none

/-- The location key `emissions_map` assigns an activity (charts.py lines
285-295): the eGRID label when the upper-cased subregion is a known code,
else the upper-cased country when known, else none (the activity is
skipped). -/
def locationLabel (act : ActivityRecord) : Option String :=
  match pyStr act.grid_subregion with
  | some g =>
    if egridCodes.contains (pyUpper g) then some ("eGRID: " ++ pyUpper g)
    else countryLabel act
  | none => countryLabel act

/-- The `result_map` lookup of `emissions_map` (charts.py lines 279-282):
total tonnes of all Results carrying the given activity id. -/
def resultTonnes (inv : InventoryResult) (aid : String) : ℚ :=
  sumTonnes (inv.all_results.filter (fun r => decide (pyStr r.activity_id = some aid)))

/-- Tonnes attributed to one activity (charts.py line 298):
`result_map.get(act.id, 0) if act.id else 0`. -/
def activityTonnes (inv : InventoryResult) (act : ActivityRecord) : ℚ :=
  match pyStr act.id with
  | some aid => resultTonnes inv aid
  | none => 0

/-- One step of the `location_data` accumulation loop of `emissions_map`
(charts.py lines 284-306): an activity with no recognized location is
skipped, otherwise its tonnes are added under its location key. -/
def mapStep (inv : InventoryResult) (ps : List (String × ℚ))
    (a : ActivityRecord) : List (String × ℚ) :=
  match locationLabel a with
  | none => ps
  | some l => addTo ps l (activityTonnes inv a)

/-- The `location_data` dictionary of `emissions_map` (charts.py lines
284-306): left-to-right accumulation over the activities. -/
def emissionsMapData (inv : InventoryResult) (acts : List ActivityRecord) :
    List (String × ℚ) :=
  acts.foldl (mapStep inv) []

/-- `emissions_map` (charts.py lines 269-309, data part): `None` when no
activity has a recognized location, otherwise the per-location tonnes. -/
def emissionsMap (inv : InventoryResult) (acts : List ActivityRecord) :
    Option (List (String × ℚ)) :=
  let ps := emissionsMapData inv acts
  if ps.isEmpty then none else some ps

/-- Modelled from the spec: report configuration (`models/report.py` is not
in the source tree); fields as read by `ReportGenerator.generate`. -/
structure ReportConfig where
  title : String
  format : String := "ghg_protocol"
  include_methodology : Bool := true
deriving DecidableEq, Repr

/-- Outcome of building each plotly chart in `ReportGenerator.generate`:
chart construction runs external plotting code, so each build is embedded
as an exception-or-JSON value; the map and gauge builders may also return
`None` instead of a figure. -/
structure ChartOutcomes where
  donut : Except String String
  waterfall : Except String String
  category : Except String String
  treemap : Except String String
  top_sources : Except String String
  emap : Except String (Option String)
  gauge : Except String (Option String)

/-- The `try/except Exception: pass` wrapper around a chart build in
`ReportGenerator.generate` (generator.py lines 649-694): a raised
exception is discarded and the chart's JSON stays `None`. -/
def tryChart : Except String String → Option String
  | .ok j => some j
  | .error _ => none

/-- The wrapper for the builders that may return `None` (map, gauge). -/
def tryOptChart : Except String (Option String) → Option String
  | .ok j => j
  | .error _ => none

/-- The rendered report: the template variables passed to
`template.render(...)` in `ReportGenerator.generate` (generator.py lines
714-734) plus the output path the HTML is written to. -/
structure RenderedReport where
  title : String
  year : Option Int
  total_tonnes : ℚ
  scope1_tonnes : ℚ
  scope2_tonnes : ℚ
  scope3_tonnes : ℚ
  donut_json : Option String
  waterfall_json : Option String
  category_json : Option String
  treemap_json : Option String
  top_sources_json : Option String
  map_json : Option String
  gauge_json : Option String
  gwp_assessment : String
  report_format : String
  output_path : String
deriving DecidableEq, Repr

/-- `ReportGenerator.generate` (generator.py lines 627-738): builds each
chart under an exception-discarding wrapper (treemap only when Scope 3
tonnes are positive, map and gauge only when a non-empty activities list is
supplied), then renders the template — with the Scope 2 summary card fed
from the location-based sub-total and the GWP basis rendered as the literal
string `"ar5"` — and writes the HTML to `output_path`. -/
def generate (inv : InventoryResult) (config : ReportConfig) (output_path : String)
    (activities : Option (List ActivityRecord)) (ch : ChartOutcomes) : RenderedReport :=
  { title := config.title
    year := inv.year
    total_tonnes := inv.total_co2e_tonnes
    scope1_tonnes := inv.scope1.total_co2e_tonnes
    scope2_tonnes := inv.scope2_location.total_co2e_tonnes
    scope3_tonnes := inv.scope3.total_co2e_tonnes
    donut_json := tryChart ch.donut
    waterfall_json := tryChart ch.waterfall
    category_json := tryChart ch.category
    treemap_json := if 0 < inv.scope3.total_co2e_tonnes then tryChart ch.treemap else none
    top_sources_json := tryChart ch.top_sources
    map_json :=
      match activities with
      | some (_ :: _) => tryOptChart ch.emap
      | _ => none
    gauge_json :=
      match activities with
      | some (_ :: _) => tryOptChart ch.gauge
      | _ => none
    gwp_assessment := "ar5"
    report_format := config.format
    output_path := output_path }

/-! ### The `validate` command, embedded from `cli/app.py` lines 227-254 -/

/-- The per-record validation loop of the `validate` command starting at
index `i`: every record is checked, valid ones counted, each invalid one
contributing an `(index, error)` pair. -/
def validateFrom {α : Type} (parse : α → Except String Unit) (i : Nat) :
    List α → Nat × List (Nat × String)
  | [] => (0, [])
  | r :: rest =>
    let acc := validateFrom parse (i + 1) rest
    match parse r with
    | .ok _ => (acc.1 + 1, acc.2)
    | .error e => (acc.1, (i, e) :: acc.2)

/-- The `validate` command's batch check (app.py lines 242-247): validates
every record of the batch, reporting the valid count and the list of
`(index, error)` pairs. -/
def validateBatch {α : Type} (parse : α → Except String Unit) (records : List α) :
    Nat × List (Nat × String) :=
  validateFrom parse 0 records

/-- `Except` success test (the `try` branch taken in the validate loop). -/
def isOkB {ε α : Type} : Except ε α → Bool
  | .ok _ => true
  | .error _ => false

/-! ### Concrete fixtures used to evaluate the theorems below -/

/-- A registry resolving no factor at all. -/
def resolve0 : ActivityRecord → Option EmissionFactor := fun _ => none

/-- The spec's refrigerant example: 2 kg of leaked hfc-134a
(Scope 1, fugitive). -/
def act4 : ActivityRecord :=
  { scope := .scope1, scope1_category := some .fugitive, quantity := 2,
    unit := .kg, refrigerant_type := some "hfc-134a" }

/-- The Result of calculating `act4` under AR5. -/
def r4 : EmissionResult :=
  mkResult act4 none (2 * 1300) [⟨"hfc-134a", 2, 1300, 2 * 1300⟩] none none []

/-- A refrigerant activity over the gas ch4, whose GWP differs between the
two assessments. -/
def act5 : ActivityRecord :=
  { scope := .scope1, scope1_category := some .fugitive, quantity := 1,
    unit := .kg, refrigerant_type := some "ch4", id := some "a1" }

/-- Default report configuration. -/
def cfg0 : ReportConfig := { title := "GHG Emissions Report" }

/-- Chart outcomes where every chart build succeeds. -/
def chOk : ChartOutcomes :=
  ⟨.ok "dj", .ok "wj", .ok "cj", .ok "tj", .ok "sj", .ok (some "ej"), .ok (some "gj")⟩

/-- Chart outcomes where every chart build raises. -/
def chBad : ChartOutcomes :=
  ⟨.error "boom", .error "boom", .error "boom", .error "boom", .error "boom",
   .error "boom", .error "boom"⟩

/-- A Scope 2 location-based Result. -/
def rloc0 : EmissionResult :=
  { scope := .scope2, scope2_method := some .locationBased,
    total_co2e_kg := 1000, total_co2e_tonnes := 1, activity_id := some "grid" }

/-- A Scope 2 market-based Result for the same activity. -/
def rmkt0 : EmissionResult :=
  { scope := .scope2, scope2_method := some .marketBased,
    total_co2e_kg := 2000, total_co2e_tonnes := 2, activity_id := some "grid" }

/-- A per-gas natural-gas factor (CO2 and CH4 coefficients per therm). -/
def fGas : EmissionFactor :=
  { id := "ng-per-gas", name := "natural gas per-gas", source := .epa,
    activity_unit := .therm, value := .perGas [⟨"co2", 5⟩, ⟨"ch4", 1/10⟩] }

/-- A combined natural-gas factor of 5.31 kg CO2e per therm. -/
def fComb : EmissionFactor :=
  { id := "ng-combined", name := "natural gas combined", source := .epa,
    activity_unit := .therm, value := .combined (531/100) }

/-- A registry always resolving the per-gas factor. -/
def resolveGas : ActivityRecord → Option EmissionFactor := fun _ => some fGas

/-- A registry always resolving the combined factor. -/
def resolveComb : ActivityRecord → Option EmissionFactor := fun _ => some fComb

/-- A Scope 1 stationary-combustion activity of 1000 therms. -/
def actGas : ActivityRecord :=
  { scope := .scope1, scope1_category := some .stationaryCombustion,
    quantity := 1000, unit := .therm }

/-- A Scope 3 activity carrying a caller-supplied override factor. -/
def actOv : ActivityRecord :=
  { scope := .scope3, scope3_category := some 1, quantity := 10,
    unit := .kg, custom_factor := some (3/2) }

/-- An activity located by lower-case country code, carrying an id. -/
def actUS : ActivityRecord :=
  { scope := .scope2, quantity := 1, unit := .kWh,
    country := some "us", id := some "a1" }

/-- A Result matched to `actUS` by activity id, worth 5 tonnes. -/
def rUS : EmissionResult :=
  { scope := .scope2, scope2_method := some .locationBased,
    total_co2e_kg := 5000, total_co2e_tonnes := 5, activity_id := some "a1" }

/-- Inventory holding just `rUS`. -/
def invUS : InventoryResult := aggregate [rUS] none

/-! ## Theorems -/

theorem toBase_pos (u : PhysUnit) : 0 < toBase u := by
  cases u <;> norm_num [toBase]

/-- **C7.** For all units A and B in the same dimension family and every
value v > 0, converting v from A to B and back yields v within a relative
tolerance of 1e-9 (here: exactly, over exact arithmetic). -/
theorem c7_convert_roundtrip (A B : PhysUnit) (v : ℚ)
    (hdim : dimension A = dimension B) (hv : 0 < v) :
    ∃ w r, convert v A B = .ok w ∧ convert w B A = .ok r ∧
      |r - v| ≤ v / 10 ^ 9 := by
  have ha := (toBase_pos A).ne'
  have hb := (toBase_pos B).ne'
  refine ⟨v * toBase A / toBase B, v, ?_, ?_, ?_⟩
  · simp [convert, hdim]
  · simp only [convert, hdim, if_pos]
    congr 1
    field_simp
  · simpa using by positivity

/-- Witness for C7: a 2-gallon round trip through liters. -/
theorem c7_convert_roundtrip_witness :
    ∃ w r, convert 2 .gallon .liter = .ok w ∧ convert w .liter .gallon = .ok r ∧
      |r - 2| ≤ 2 / 10 ^ 9 :=
  c7_convert_roundtrip .gallon .liter 2 (by decide) (by norm_num)

/-- **C8.** Converting between units of different dimension families always
fails with `DimensionMismatch`, never silently coercing. -/
theorem c8_convert_dimension_mismatch (A B : PhysUnit) (v : ℚ)
    (h : dimension A ≠ dimension B) :
    convert v A B = .error .dimensionMismatch := by
  simp [convert, h]

/-- Witness for C8: `convert(5, "gallon", "kWh")` raises
`DimensionMismatch`. -/
theorem c8_convert_dimension_mismatch_witness :
    convert 5 .gallon .kWh = .error .dimensionMismatch :=
  c8_convert_dimension_mismatch .gallon .kWh 5 (by decide)

theorem validateFrom_spec {α : Type} (parse : α → Except String Unit) :
    ∀ (rs : List α) (i : Nat),
      (validateFrom parse i rs).1 = (rs.filter (fun r => isOkB (parse r))).length ∧
      (validateFrom parse i rs).2 =
        (List.enumFrom i rs).filterMap (fun p =>
          match parse p.2 with
          | .ok _ => none
          | .error e => some (p.1, e)) := by
  intro rs
  induction rs with
  | nil => intro i; simp [validateFrom]
  | cons r rest ih =>
    intro i
    have h := ih (i + 1)
    cases hp : parse r with
    | ok u =>
      simp [validateFrom, hp, List.enumFrom, h.1, h.2, List.filter_cons, isOkB]
    | error e =>
      simp [validateFrom, hp, List.enumFrom, h.1, h.2, List.filter_cons, isOkB]

theorem validateFrom_count {α : Type} (parse : α → Except String Unit) :
    ∀ (rs : List α) (i : Nat),
      (validateFrom parse i rs).1 + (validateFrom parse i rs).2.length = rs.length := by
  intro rs
  induction rs with
  | nil => intro i; simp [validateFrom]
  | cons r rest ih =>
    intro i
    have h := ih (i + 1)
    cases hp : parse r <;> simp [validateFrom, hp] <;> omega

/-- **C6.** The validation collaborator checks every record of a batch of n
records (no abort at the first failure), reporting the count of valid
records and one (index, error) pair per invalid record, with valid count
plus error count equal to n. -/
theorem c6_validate_batch {α : Type} (parse : α → Except String Unit)
    (records : List α) :
    (validateBatch parse records).1 =
      (records.filter (fun r => isOkB (parse r))).length ∧
    (validateBatch parse records).1 + (validateBatch parse records).2.length =
      records.length ∧
    (validateBatch parse records).2 =
      records.enum.filterMap (fun p =>
        match parse p.2 with
        | .ok _ => none
        | .error e => some (p.1, e)) := by
  unfold validateBatch
  have h := validateFrom_spec parse records 0
  refine ⟨h.1, validateFrom_count parse records 0, ?_⟩
  rw [h.2, List.enum]

theorem gasEntries_length (a : GWPAssessment) (nq : ℚ) :
    ∀ (cs : List GasCoef) (es : List GasBreakdownEntry),
      gasEntries a nq cs = .ok es → es.length = cs.length := by
  intro cs
  induction cs with
  | nil =>
    intro es h
    simp only [gasEntries, Except.ok.injEq] at h
    simp [← h]
  | cons gc rest ih =>
    intro es h
    simp only [gasEntries] at h
    cases hg : gwpTable a gc.gas with
    | none => rw [hg] at h; exact absurd h (by simp)
    | some w =>
      rw [hg] at h
      cases hrec : gasEntries a nq rest with
      | error e => rw [hrec] at h; exact absurd h (by simp)
      | ok es' =>
        rw [hrec] at h
        simp only [Except.ok.injEq] at h
        subst h
        simp [ih es' hrec]

theorem gasEntries_recorded (a : GWPAssessment) (nq : ℚ) :
    ∀ (cs : List GasCoef) (es : List GasBreakdownEntry),
      gasEntries a nq cs = .ok es →
      ∀ e ∈ es, gwpTable a e.gas = some e.gwp_used ∧
        e.co2e_kg = e.mass_kg * e.gwp_used := by
  intro cs
  induction cs with
  | nil =>
    intro es h
    simp only [gasEntries, Except.ok.injEq] at h
    simp [← h]
  | cons gc rest ih =>
    intro es h
    simp only [gasEntries] at h
    cases hg : gwpTable a gc.gas with
    | none => rw [hg] at h; exact absurd h (by simp)
    | some w =>
      rw [hg] at h
      cases hrec : gasEntries a nq rest with
      | error e => rw [hrec] at h; exact absurd h (by simp)
      | ok es' =>
        rw [hrec] at h
        simp only [Except.ok.injEq] at h
        subst h
        intro e he
        rcases List.mem_cons.mp he with rfl | he'
        · exact ⟨hg, rfl⟩
        · exact ih es' hrec e he'

theorem computeCore_override (resolve : ActivityRecord → Option EmissionFactor)
    (a : GWPAssessment) (act : ActivityRecord) (c : ℚ)
    (hov : act.custom_factor = some c) :
    computeCore resolve a act = .ok ⟨act.quantity * c, [], none, none, []⟩ := by
  unfold computeCore
  rw [hov]

theorem computeCore_noFactor (resolve : ActivityRecord → Option EmissionFactor)
    (a : GWPAssessment) (act : ActivityRecord)
    (hov : act.custom_factor = none) (hres : resolve act = none) :
    computeCore resolve a act =
      .error (.factorResolution act.scope (categoryName act) act.unit) := by
  unfold computeCore
  rw [hov, hres]

theorem computeCore_resolved (resolve : ActivityRecord → Option EmissionFactor)
    (a : GWPAssessment) (act : ActivityRecord) (f : EmissionFactor)
    (out : CoreOut)
    (hov : act.custom_factor = none) (hres : resolve act = some f)
    (hcore : computeCore resolve a act = .ok out) :
    out.factor_id = some f.id ∧ out.factor_source = some f.source ∧
    (∀ c, f.value = .combined c → out.breakdown = []) ∧
    (∀ cs, f.value = .perGas cs →
      out.breakdown.length = cs.length ∧ sumCo2e out.breakdown = out.total_kg) ∧
    (∀ e ∈ out.breakdown,
      gwpTable a e.gas = some e.gwp_used ∧ e.co2e_kg = e.mass_kg * e.gwp_used) := by
  unfold computeCore at hcore
  simp only [hov, hres] at hcore
  cases hconv : convert act.quantity act.unit f.activity_unit with
  | error e =>
    simp only [hconv] at hcore
    exact absurd hcore (by simp)
  | ok nq =>
    simp only [hconv] at hcore
    cases hfv : f.value with
    | combined c =>
      simp only [hfv, Except.ok.injEq] at hcore
      subst hcore
      refine ⟨rfl, rfl, fun c' h => rfl, fun cs h => by simp at h, ?_⟩
      intro e he
      simp at he
    | perGas cs =>
      simp only [hfv] at hcore
      cases hge : gasEntries a nq cs with
      | error e =>
        simp only [hge] at hcore
        exact absurd hcore (by simp)
      | ok es =>
        simp only [hge, Except.ok.injEq] at hcore
        subst hcore
        refine ⟨rfl, rfl, fun c h => by simp at h, ?_, ?_⟩
        · intro cs' h
          have hcs : cs = cs' := by injection h
          subst hcs
          exact ⟨by simpa using gasEntries_length a nq cs es hge, rfl⟩
        · intro e he
          exact gasEntries_recorded a nq cs es hge e (by simpa using he)

theorem calculate_single_refrPath (resolve : ActivityRecord → Option EmissionFactor)
    (a : GWPAssessment) (act : ActivityRecord) (rg : String)
    (hrg : refrigerantOf act = some rg) :
    calculate_single resolve a act =
      match gwpTable a rg with
      | none => .error (.unknownGas rg)
      | some g =>
        .ok [mkResult act none (act.quantity * g)
              [⟨rg, act.quantity, g, act.quantity * g⟩] none none []] := by
  unfold calculate_single
  rw [hrg]

theorem calculate_single_factorPath (resolve : ActivityRecord → Option EmissionFactor)
    (a : GWPAssessment) (act : ActivityRecord)
    (hrg : refrigerantOf act = none) :
    calculate_single resolve a act =
      match computeCore resolve a act with
      | .error e => .error e
      | .ok out =>
        if act.scope = .scope2 ∧ act.scope2_method = none then
          .ok [ mkResult act (some .locationBased) out.total_kg out.breakdown
                  out.factor_id out.factor_source out.notes,
                mkResult act (some .marketBased) out.total_kg out.breakdown
                  out.factor_id out.factor_source
                  (out.notes ++ ["market-based defaults to location-based factor"]) ]
        else
          .ok [ mkResult act (if act.scope = .scope2 then act.scope2_method else none)
                  out.total_kg out.breakdown out.factor_id out.factor_source out.notes ] := by
  unfold calculate_single
  rw [hrg]

theorem factorPath_results (resolve : ActivityRecord → Option EmissionFactor)
    (a : GWPAssessment) (act : ActivityRecord) (out : CoreOut)
    (results : List EmissionResult)
    (hrg : refrigerantOf act = none)
    (hcore : computeCore resolve a act = .ok out)
    (hok : calculate_single resolve a act = .ok results) :
    results ≠ [] ∧
    ∀ r ∈ results,
      r.total_co2e_kg = out.total_kg ∧ r.gas_breakdown = out.breakdown ∧
      r.factor_id = out.factor_id ∧ r.factor_source = out.factor_source := by
  rw [calculate_single_factorPath resolve a act hrg] at hok
  simp only [hcore] at hok
  split at hok <;> simp only [Except.ok.injEq] at hok <;> subst hok
  · refine ⟨by simp, ?_⟩
    intro r hr
    rcases List.mem_cons.mp hr with rfl | hr'
    · exact ⟨rfl, rfl, rfl, rfl⟩
    · rcases List.mem_singleton.mp hr' with rfl
      exact ⟨rfl, rfl, rfl, rfl⟩
  · refine ⟨by simp, ?_⟩
    intro r hr
    rcases List.mem_singleton.mp hr with rfl
    exact ⟨rfl, rfl, rfl, rfl⟩

/-- **C2.** For every Result produced by `calculate_single` from a resolved
factor: a combined-coefficient factor yields an empty Gas Breakdown, and a
per-gas factor yields exactly one entry per declared gas with the entries'
CO2e summing to the Result's total (exactly, hence within tolerance). -/
theorem c2_gas_breakdown_shape (resolve : ActivityRecord → Option EmissionFactor)
    (a : GWPAssessment) (act : ActivityRecord) (f : EmissionFactor)
    (results : List EmissionResult)
    (hrg : refrigerantOf act = none)
    (hov : act.custom_factor = none)
    (hres : resolve act = some f)
    (hok : calculate_single resolve a act = .ok results) :
    ∀ r ∈ results,
      (∀ c, f.value = .combined c → r.gas_breakdown = []) ∧
      (∀ cs, f.value = .perGas cs →
        r.gas_breakdown.length = cs.length ∧
        sumCo2e r.gas_breakdown = r.total_co2e_kg) := by
  cases hcore : computeCore resolve a act with
  | error e =>
    rw [calculate_single_factorPath resolve a act hrg] at hok
    simp only [hcore] at hok
    exact absurd hok (by simp)
  | ok out =>
    have hres' := computeCore_resolved resolve a act f out hov hres hcore
    obtain ⟨-, hfields⟩ := factorPath_results resolve a act out results hrg hcore hok
    intro r hr
    obtain ⟨htot, hbd, -, -⟩ := hfields r hr
    refine ⟨?_, ?_⟩
    · intro c hc
      rw [hbd]
      exact hres'.2.2.1 c hc
    · intro cs hcs
      obtain ⟨hlen, hsum⟩ := hres'.2.2.2.1 cs hcs
      rw [hbd, htot]
      exact ⟨hlen, hsum⟩

/-- Witness for C2: the per-gas natural-gas factor yields a two-entry
breakdown summing to the total, and the combined factor an empty one. -/
theorem c2_gas_breakdown_shape_witness :
    ∃ results, calculate_single resolveGas .ar5 actGas = .ok results ∧
      results ≠ [] ∧
      ∀ r ∈ results,
        r.gas_breakdown.length = 2 ∧ sumCo2e r.gas_breakdown = r.total_co2e_kg := by
  refine ⟨_, rfl, ?_⟩
  have h := c2_gas_breakdown_shape resolveGas .ar5 actGas fGas _
    (by rfl) (by rfl) (by rfl) rfl
  constructor
  · simp [calculate_single, refrigerantOf, actGas, computeCore, resolveGas]
  · intro r hr
    have := (h r hr).2 [⟨"co2", 5⟩, ⟨"ch4", 1/10⟩] (by rfl)
    simpa using this

/-- **C3.** Factor resolution order: a caller-supplied override is used
directly as a combined CO2e-per-unit factor with the registry lookup
skipped and no factor id or source recorded; otherwise the registry is
consulted and its factor's id/source recorded; and with no factor resolved
and no override the calculation fails with `FactorResolutionError` naming
the scope/category/unit combination. -/
theorem c3_resolution_order (resolve resolve' : ActivityRecord → Option EmissionFactor)
    (a : GWPAssessment) (act : ActivityRecord)
    (hrg : refrigerantOf act = none) :
    (∀ c, act.custom_factor = some c →
      calculate_single resolve a act = calculate_single resolve' a act ∧
      ∃ results, calculate_single resolve a act = .ok results ∧
        results ≠ [] ∧
        ∀ r ∈ results, r.factor_id = none ∧ r.factor_source = none ∧
          r.total_co2e_kg = act.quantity * c ∧ r.gas_breakdown = []) ∧
    (∀ f results, act.custom_factor = none → resolve act = some f →
      calculate_single resolve a act = .ok results →
      ∀ r ∈ results, r.factor_id = some f.id ∧ r.factor_source = some f.source) ∧
    (act.custom_factor = none → resolve act = none →
      calculate_single resolve a act =
        .error (.factorResolution act.scope (categoryName act) act.unit)) := by
  refine ⟨?_, ?_, ?_⟩
  · intro c hov
    have hco := computeCore_override resolve a act c hov
    have hco' := computeCore_override resolve' a act c hov
    have hok := calculate_single_factorPath resolve a act hrg
    simp only [hco] at hok
    refine ⟨?_, ?_⟩
    · rw [calculate_single_factorPath resolve a act hrg,
        calculate_single_factorPath resolve' a act hrg, hco, hco']
    · by_cases hs : act.scope = .scope2 ∧ act.scope2_method = none
      · rw [if_pos hs] at hok
        refine ⟨_, hok, by simp, ?_⟩
        intro r hr
        rcases List.mem_cons.mp hr with rfl | hr'
        · exact ⟨rfl, rfl, rfl, rfl⟩
        · rcases List.mem_singleton.mp hr' with rfl
          exact ⟨rfl, rfl, rfl, rfl⟩
      · rw [if_neg hs] at hok
        refine ⟨_, hok, by simp, ?_⟩
        intro r hr
        rcases List.mem_singleton.mp hr with rfl
        exact ⟨rfl, rfl, rfl, rfl⟩
  · intro f results hov hres hok
    cases hcore : computeCore resolve a act with
    | error e =>
      rw [calculate_single_factorPath resolve a act hrg, hcore] at hok
      exact absurd hok (by simp)
    | ok out =>
      obtain ⟨hfid, hfsrc, -, -, -⟩ :=
        computeCore_resolved resolve a act f out hov hres hcore
      obtain ⟨-, hfields⟩ :=
        factorPath_results resolve a act out results hrg hcore hok
      intro r hr
      obtain ⟨-, -, h1, h2⟩ := hfields r hr
      rw [h1, h2, hfid, hfsrc]
      exact ⟨rfl, rfl⟩
  · intro hov hres
    rw [calculate_single_factorPath resolve a act hrg,
      computeCore_noFactor resolve a act hov hres]

/-- Witness for C3: the no-factor activity fails with
`FactorResolutionError`, and the same activity with an override succeeds
recording no factor id. -/
theorem c3_resolution_order_witness :
    (calculate_single resolve0 .ar5 actGas =
      .error (.factorResolution actGas.scope (categoryName actGas) actGas.unit)) ∧
    (∃ results, calculate_single resolve0 .ar5 actOv = .ok results ∧
      results ≠ [] ∧
      ∀ r ∈ results, r.factor_id = none ∧ r.factor_source = none ∧
        r.total_co2e_kg = actOv.quantity * (3/2) ∧ r.gas_breakdown = []) := by
  constructor
  · exact (c3_resolution_order resolve0 resolve0 .ar5 actGas (by rfl)).2.2
      (by rfl) (by rfl)
  · exact (c3_resolution_order resolve0 resolve0 .ar5 actOv (by rfl)).1
      (3/2) (by rfl) |>.2

/-- **C4.** The refrigerant-leakage rule: a Scope 1 fugitive activity with a
refrigerant identifier multiplies the leaked mass directly by that
refrigerant's GWP with no per-unit factor lookup (the registry is ignored),
producing exactly one Gas Breakdown Entry whose gas is the refrigerant. -/
theorem c4_refrigerant_rule (resolve resolve' : ActivityRecord → Option EmissionFactor)
    (a : GWPAssessment) (act : ActivityRecord) (rg : String) (g : ℚ)
    (hrg : refrigerantOf act = some rg)
    (hg : gwpTable a rg = some g) :
    ∃ r, calculate_single resolve a act = .ok [r] ∧
      calculate_single resolve' a act = .ok [r] ∧
      r.total_co2e_kg = act.quantity * g ∧
      r.gas_breakdown = [⟨rg, act.quantity, g, act.quantity * g⟩] ∧
      r.factor_id = none ∧ r.factor_source = none := by
  refine ⟨mkResult act none (act.quantity * g)
    [⟨rg, act.quantity, g, act.quantity * g⟩] none none [], ?_, ?_, rfl, rfl, rfl, rfl⟩
  · rw [calculate_single_refrPath resolve a act rg hrg, hg]
  · rw [calculate_single_refrPath resolve' a act rg hrg, hg]

/-- Witness for C4: 2 kg of leaked hfc-134a under AR5 (GWP 1300) yields
total CO2e of 2600 kg and a single breakdown entry for hfc-134a. -/
theorem c4_refrigerant_rule_witness :
    ∃ r, calculate_single resolve0 .ar5 act4 = .ok [r] ∧
      r.total_co2e_kg = 2600 ∧
      r.gas_breakdown = [⟨"hfc-134a", 2, 1300, 2600⟩] ∧
      r.factor_id = none := by
  obtain ⟨r, h1, -, h3, h4, h5, -⟩ :=
    c4_refrigerant_rule resolve0 resolve0 .ar5 act4 "hfc-134a" 1300 (by rfl) (by rfl)
  refine ⟨r, h1, ?_, ?_, h5⟩
  · rw [h3]; norm_num [act4]
  · rw [h4]; norm_num [act4]

theorem computeCore_recorded (resolve : ActivityRecord → Option EmissionFactor)
    (a : GWPAssessment) (act : ActivityRecord) (out : CoreOut)
    (hcore : computeCore resolve a act = .ok out) :
    ∀ e ∈ out.breakdown,
      gwpTable a e.gas = some e.gwp_used ∧ e.co2e_kg = e.mass_kg * e.gwp_used := by
  unfold computeCore at hcore
  cases hov : act.custom_factor with
  | some c =>
    simp only [hov, Except.ok.injEq] at hcore
    subst hcore
    intro e he
    simp at he
  | none =>
    simp only [hov] at hcore
    cases hres : resolve act with
    | none =>
      simp only [hres] at hcore
      exact absurd hcore (by simp)
    | some f =>
      simp only [hres] at hcore
      cases hconv : convert act.quantity act.unit f.activity_unit with
      | error e =>
        simp only [hconv] at hcore
        exact absurd hcore (by simp)
      | ok nq =>
        simp only [hconv] at hcore
        cases hfv : f.value with
        | combined c =>
          simp only [hfv, Except.ok.injEq] at hcore
          subst hcore
          intro e he
          simp at he
        | perGas cs =>
          simp only [hfv] at hcore
          cases hge : gasEntries a nq cs with
          | error e =>
            simp only [hge] at hcore
            exact absurd hcore (by simp)
          | ok es =>
            simp only [hge, Except.ok.injEq] at hcore
            subst hcore
            intro e he
            exact gasEntries_recorded a nq cs es hge e (by simpa using he)

/-- The spec's hfc-134a Result, as `calculate_single` produces it under
AR6 for `act5` (ch4, GWP 27.9). -/
def r5 : EmissionResult :=
  mkResult act5 none (1 * (279/10)) [⟨"ch4", 1, 279/10, 1 * (279/10)⟩] none none []

/-- Counterexample to **C5**: an inventory calculated under AR6 records the
AR6 GWP in its Gas Breakdown Entry, yet the report rendered from it states
the GWP basis as `"ar5"`, which differs from the assessment actually
applied. -/
theorem c5_counterexample :
    calculate_single resolve0 .ar6 act5 = .ok [r5] ∧
    gwpTable .ar6 "ch4" = some (279/10) ∧
    r5.gas_breakdown = [⟨"ch4", 1, 279/10, 1 * (279/10)⟩] ∧
    (generate (aggregate [r5] none) cfg0 "report.html" none chOk).gwp_assessment = "ar5" ∧
    assessmentLabel .ar6 = "ar6" ∧
    ("ar5" : String) ≠ "ar6" := by
  refine ⟨?_, rfl, rfl, rfl, rfl, by decide⟩
  rw [calculate_single_refrPath resolve0 .ar6 act5 "ch4" rfl]
  rfl

/-- **C5 (amended).** The GWP assessment is part of the calculation context
and the GWP value actually applied per gas is recorded in that gas's Gas
Breakdown Entry; however, `ReportGenerator.generate` renders the report's
GWP basis as the constant string `"ar5"` regardless of the assessment the
inventory was calculated under, so the reported basis matches the applied
assessment only when that assessment is AR5. -/
theorem c5_gwp_recorded (resolve : ActivityRecord → Option EmissionFactor)
    (a : GWPAssessment) (act : ActivityRecord) (results : List EmissionResult)
    (hok : calculate_single resolve a act = .ok results) :
    (∀ r ∈ results, ∀ e ∈ r.gas_breakdown,
      gwpTable a e.gas = some e.gwp_used ∧ e.co2e_kg = e.mass_kg * e.gwp_used) ∧
    (∀ inv config path acts ch,
      (generate inv config path acts ch).gwp_assessment = "ar5") := by
  refine ⟨?_, fun inv config path acts ch => rfl⟩
  cases hrg : refrigerantOf act with
  | some rg =>
    rw [calculate_single_refrPath resolve a act rg hrg] at hok
    cases hg : gwpTable a rg with
    | none =>
      simp only [hg] at hok
      exact absurd hok (by simp)
    | some g =>
      simp only [hg, Except.ok.injEq] at hok
      subst hok
      intro r hr
      rcases List.mem_singleton.mp hr with rfl
      intro e he
      rcases List.mem_singleton.mp (by simpa [mkResult] using he) with rfl
      exact ⟨hg, rfl⟩
  | none =>
    cases hcore : computeCore resolve a act with
    | error e =>
      rw [calculate_single_factorPath resolve a act hrg] at hok
      simp only [hcore] at hok
      exact absurd hok (by simp)
    | ok out =>
      obtain ⟨-, hfields⟩ := factorPath_results resolve a act out results hrg hcore hok
      intro r hr e he
      obtain ⟨-, hbd, -, -⟩ := hfields r hr
      rw [hbd] at he
      exact computeCore_recorded resolve a act out hcore e he

/-- Witness for the amended C5: the AR5 hfc-134a run records GWP 1300 in
its entry, and the rendered report's GWP label is `"ar5"`. -/
theorem c5_gwp_recorded_witness :
    gwpTable GWPAssessment.ar5 "hfc-134a" = some 1300 ∧
    (generate (aggregate [r4] none) cfg0 "report.html" none chOk).gwp_assessment = "ar5" := by
  have h := c5_gwp_recorded resolve0 .ar5 act4 [r4] (by
    rw [calculate_single_refrPath resolve0 .ar5 act4 "hfc-134a" rfl]
    rfl)
  have he := h.1 r4 (by simp)
    ⟨"hfc-134a", 2, 1300, 2 * 1300⟩ (by simp [r4, mkResult])
  exact ⟨he.1, h.2 (aggregate [r4] none) cfg0 "report.html" none chOk⟩

theorem sourceData_filterMap (rs : List EmissionResult) :
    (rs.filterMap fun r =>
      if r.scope2_method = some Scope2Method.marketBased then none
      else some (truncLabel (pyLabel r), r.total_co2e_tonnes)) =
    (rs.filter (fun r => !decide (r.scope2_method = some Scope2Method.marketBased))).map
      (fun r => (truncLabel (pyLabel r), r.total_co2e_tonnes)) := by
  induction rs with
  | nil => rfl
  | cons r rest ih =>
    by_cases h : r.scope2_method = some Scope2Method.marketBased <;>
      simp [List.filterMap_cons, List.filter_cons, h, ih]

/-- **C1.** The grand total in tonnes is the sum of the Scope 1, Scope 2
location-based and Scope 3 sub-totals; a market-based Result is never folded
into the location-based sub-total (and vice versa); and the report layer's
roll-ups — the scope summary cards and the top-sources chart — use the
location-based sub-total and exclude every market-based Result. -/
theorem c1_location_based_totals (rs : List EmissionResult) (year : Option Int)
    (config : ReportConfig) (path : String) (acts : Option (List ActivityRecord))
    (ch : ChartOutcomes) :
    (aggregate rs year).total_co2e_tonnes =
      (aggregate rs year).scope1.total_co2e_tonnes +
      (aggregate rs year).scope2_location.total_co2e_tonnes +
      (aggregate rs year).scope3.total_co2e_tonnes ∧
    (∀ r : EmissionResult, r.scope2_method = some Scope2Method.marketBased →
      r ∉ (aggregate rs year).scope2_location.results) ∧
    (∀ r : EmissionResult, r.scope2_method = some Scope2Method.locationBased →
      r ∉ (aggregate rs year).scope2_market.results) ∧
    (generate (aggregate rs year) config path acts ch).scope2_tonnes =
      (aggregate rs year).scope2_location.total_co2e_tonnes ∧
    (generate (aggregate rs year) config path acts ch).total_tonnes =
      (aggregate rs year).total_co2e_tonnes ∧
    topSourcesSourceData (aggregate rs year) =
      (rs.filter (fun r => !decide (r.scope2_method = some Scope2Method.marketBased))).map
        (fun r => (truncLabel (pyLabel r), r.total_co2e_tonnes)) := by
  refine ⟨rfl, ?_, ?_, rfl, rfl, sourceData_filterMap rs⟩
  · intro r hmkt hmem
    simp only [aggregate] at hmem
    have := (List.mem_filter.mp hmem).2
    simp only [decide_eq_true_eq] at this
    rw [hmkt] at this
    exact absurd this.2 (by simp)
  · intro r hloc hmem
    simp only [aggregate] at hmem
    have := (List.mem_filter.mp hmem).2
    simp only [decide_eq_true_eq] at this
    rw [hloc] at this
    exact absurd this.2 (by simp)

/-- Witness for C1: in a two-result inventory the market-based Result is
kept out of the location-based bucket and vice versa, and the grand total
is the sum of the included sub-totals. -/
theorem c1_location_based_totals_witness :
    (aggregate [rloc0, rmkt0] none).total_co2e_tonnes =
      (aggregate [rloc0, rmkt0] none).scope1.total_co2e_tonnes +
      (aggregate [rloc0, rmkt0] none).scope2_location.total_co2e_tonnes +
      (aggregate [rloc0, rmkt0] none).scope3.total_co2e_tonnes ∧
    rmkt0 ∉ (aggregate [rloc0, rmkt0] none).scope2_location.results ∧
    rloc0 ∉ (aggregate [rloc0, rmkt0] none).scope2_market.results := by
  have h := c1_location_based_totals [rloc0, rmkt0] none cfg0 "report.html" none chOk
  exact ⟨h.1, h.2.1 rmkt0 rfl, h.2.2.1 rloc0 rfl⟩

/-- **C9.** `ReportGenerator.generate` never propagates an exception raised
while building a chart: every chart build is wrapped in a discarding
handler, so for every inventory (and optional activities list) the report
is still rendered — with the failing chart omitted — and written to
`output_path`. -/
theorem c9_generate_never_fails (inv : InventoryResult) (config : ReportConfig)
    (path : String) (acts : Option (List ActivityRecord)) (ch : ChartOutcomes) :
    (generate inv config path acts ch).output_path = path ∧
    (generate inv config path acts ch).title = config.title ∧
    (generate inv config path acts ch).total_tonnes = inv.total_co2e_tonnes ∧
    (∀ e, ch.donut = .error e →
      (generate inv config path acts ch).donut_json = none) ∧
    (∀ e, ch.waterfall = .error e →
      (generate inv config path acts ch).waterfall_json = none) ∧
    (∀ e, ch.category = .error e →
      (generate inv config path acts ch).category_json = none) ∧
    (∀ e, ch.treemap = .error e →
      (generate inv config path acts ch).treemap_json = none) ∧
    (∀ e, ch.top_sources = .error e →
      (generate inv config path acts ch).top_sources_json = none) ∧
    (∀ e, ch.emap = .error e →
      (generate inv config path acts ch).map_json = none) ∧
    (∀ e, ch.gauge = .error e →
      (generate inv config path acts ch).gauge_json = none) := by
  refine ⟨rfl, rfl, rfl, ?_, ?_, ?_, ?_, ?_, ?_, ?_⟩
  · intro e he; simp [generate, tryChart, he]
  · intro e he; simp [generate, tryChart, he]
  · intro e he; simp [generate, tryChart, he]
  · intro e he; simp [generate, tryChart, he]
  · intro e he; simp [generate, tryChart, he]
  · intro e he
    cases acts with
    | none => rfl
    | some l =>
      cases l with
      | nil => rfl
      | cons a as => simp [generate, tryOptChart, he]
  · intro e he
    cases acts with
    | none => rfl
    | some l =>
      cases l with
      | nil => rfl
      | cons a as => simp [generate, tryOptChart, he]

/-- Witness for C9: with every chart build failing, the report is still
rendered with all charts omitted and carries the requested output path. -/
theorem c9_generate_never_fails_witness :
    (generate invUS cfg0 "report.html" (some [actUS]) chBad).output_path = "report.html" ∧
    (generate invUS cfg0 "report.html" (some [actUS]) chBad).total_tonnes =
      invUS.total_co2e_tonnes ∧
    (generate invUS cfg0 "report.html" (some [actUS]) chBad).donut_json = none ∧
    (generate invUS cfg0 "report.html" (some [actUS]) chBad).map_json = none := by
  obtain ⟨h1, -, h3, h4, -, -, -, -, h9, -⟩ :=
    c9_generate_never_fails invUS cfg0 "report.html" (some [actUS]) chBad
  exact ⟨h1, h3, h4 "boom" rfl, h9 "boom" rfl⟩

theorem addTo_ne_nil (ps : List (String × ℚ)) (l : String) (t : ℚ) :
    addTo ps l t ≠ [] := by
  cases ps with
  | nil => simp [addTo]
  | cons p rest => by_cases h : p.1 = l <;> simp [addTo, h]

theorem addTo_labels (ps : List (String × ℚ)) (l : String) (t : ℚ) :
    (addTo ps l t).map Prod.fst =
      if l ∈ ps.map Prod.fst then ps.map Prod.fst
      else ps.map Prod.fst ++ [l] := by
  induction ps with
  | nil => simp [addTo]
  | cons p rest ih =>
    by_cases h : p.1 = l
    · simp [addTo, h]
    · have hne : ¬(l = p.1) := fun hh => h hh.symm
      by_cases hm : l ∈ rest.map Prod.fst <;>
        simp [addTo, h, hne, hm, ih]

theorem addTo_nodup (ps : List (String × ℚ)) (l : String) (t : ℚ)
    (h : (ps.map Prod.fst).Nodup) : ((addTo ps l t).map Prod.fst).Nodup := by
  rw [addTo_labels]
  split
  · exact h
  · rename_i hm
    rw [List.nodup_append]
    refine ⟨h, List.nodup_singleton l, ?_⟩
    intro x hx hxl
    rcases List.mem_singleton.mp hxl with rfl
    exact hm hx

theorem addTo_sum (lbl : String) (ps : List (String × ℚ)) (l : String) (t : ℚ) :
    (((addTo ps l t).filter (fun p => decide (p.1 = lbl))).map Prod.snd).sum =
    ((ps.filter (fun p => decide (p.1 = lbl))).map Prod.snd).sum +
      (if l = lbl then t else 0) := by
  induction ps with
  | nil => by_cases h : l = lbl <;> simp [addTo, h]
  | cons p rest ih =>
    by_cases h : p.1 = l
    · by_cases h2 : p.1 = lbl
      · have hl : l = lbl := h.symm.trans h2
        simp [addTo, h, h2, List.filter_cons, hl]
        ring
      · have hl : ¬(l = lbl) := fun hh => h2 (h.trans hh)
        simp [addTo, h, h2, List.filter_cons, hl]
    · by_cases h2 : p.1 = lbl
      · have hll : ¬(lbl = l) := fun hh => h (h2.trans hh)
        simp [addTo, h, h2, hll, List.filter_cons, ih]
        ring
      · simp [addTo, h, h2, List.filter_cons, ih]

theorem foldl_mapStep_sum (inv : InventoryResult) (lbl : String) :
    ∀ (acts : List ActivityRecord) (acc : List (String × ℚ)),
      (((acts.foldl (mapStep inv) acc).filter
          (fun p => decide (p.1 = lbl))).map Prod.snd).sum =
      ((acc.filter (fun p => decide (p.1 = lbl))).map Prod.snd).sum +
      ((acts.filter (fun a => decide (locationLabel a = some lbl))).map
        (fun a => activityTonnes inv a)).sum := by
  intro acts
  induction acts with
  | nil => intro acc; simp
  | cons a rest ih =>
    intro acc
    simp only [List.foldl_cons]
    cases hl : locationLabel a with
    | none =>
      simp only [mapStep, hl]
      rw [ih acc]
      simp [List.filter_cons, hl]
    | some l =>
      simp only [mapStep, hl]
      rw [ih (addTo acc l (activityTonnes inv a)),
        addTo_sum lbl acc l (activityTonnes inv a)]
      by_cases h : l = lbl
      · simp [List.filter_cons, hl, h]
        ring
      · have : ¬(some l = some lbl) := by simp [h]
        simp [List.filter_cons, hl, this, h]

theorem foldl_mapStep_nodup (inv : InventoryResult) :
    ∀ (acts : List ActivityRecord) (acc : List (String × ℚ)),
      (acc.map Prod.fst).Nodup →
      (((acts.foldl (mapStep inv) acc)).map Prod.fst).Nodup := by
  intro acts
  induction acts with
  | nil => intro acc h; simpa using h
  | cons a rest ih =>
    intro acc h
    simp only [List.foldl_cons]
    cases hl : locationLabel a with
    | none => simp only [mapStep, hl]; exact ih acc h
    | some l =>
      simp only [mapStep, hl]
      exact ih _ (addTo_nodup acc l (activityTonnes inv a) h)

theorem foldl_mapStep_nil (inv : InventoryResult) :
    ∀ (acts : List ActivityRecord) (acc : List (String × ℚ)),
      (acts.foldl (mapStep inv) acc = [] ↔
        acc = [] ∧ ∀ a ∈ acts, locationLabel a = none) := by
  intro acts
  induction acts with
  | nil => intro acc; simp
  | cons a rest ih =>
    intro acc
    simp only [List.foldl_cons]
    cases hl : locationLabel a with
    | none =>
      simp only [mapStep, hl]
      rw [ih acc]
      simp [List.forall_mem_cons, hl]
    | some l =>
      simp only [mapStep, hl]
      rw [ih (addTo acc l (activityTonnes inv a))]
      simp [List.forall_mem_cons, hl, addTo_ne_nil]

theorem mem_nodup_sum :
    ∀ (ps : List (String × ℚ)), (ps.map Prod.fst).Nodup → ∀ p ∈ ps,
      p.2 = ((ps.filter (fun q => decide (q.1 = p.1))).map Prod.snd).sum := by
  intro ps
  induction ps with
  | nil => intro h p hp; simp at hp
  | cons q rest ih =>
    intro h p hp
    have hnd : (rest.map Prod.fst).Nodup := (List.nodup_cons.mp (by simpa using h)).2
    have hq : q.1 ∉ rest.map Prod.fst := (List.nodup_cons.mp (by simpa using h)).1
    rcases List.mem_cons.mp hp with rfl | hp'
    · have hnil : rest.filter (fun r => decide (r.1 = p.1)) = [] := by
        rw [List.filter_eq_nil_iff]
        intro r hr
        simp only [decide_eq_true_eq]
        intro hEq
        exact hq (hEq ▸ List.mem_map_of_mem Prod.fst hr)
      simp [List.filter_cons, hnil]
    · have hne : ¬(q.1 = p.1) := by
        intro hEq
        exact hq (hEq ▸ List.mem_map_of_mem Prod.fst hp')
      simp only [List.filter_cons, decide_eq_true_eq, hne, if_false]
      exact ih hnd p hp'

/-- **C10.** `emissions_map` silently skips every activity whose grid
subregion is not a known eGRID code and whose country is not a known ISO
code; it returns no map exactly when no activity has a recognized location;
and when a map is produced, each location's plotted tonnes are the sum,
over the activities at that location, of the Results matched to them by
activity id — unmatched activities contributing 0. -/
theorem c10_emissions_map (inv : InventoryResult) (acts : List ActivityRecord) :
    (emissionsMap inv acts = none ↔ ∀ a ∈ acts, locationLabel a = none) ∧
    (∀ ps, emissionsMap inv acts = some ps → ∀ p ∈ ps,
      p.2 = ((acts.filter (fun a => decide (locationLabel a = some p.1))).map
        (fun a => activityTonnes inv a)).sum) ∧
    (∀ a : ActivityRecord, locationLabel a = none ↔
      ((∀ g, pyStr a.grid_subregion = some g →
          egridCodes.contains (pyUpper g) = false) ∧
        (∀ c, pyStr a.country = some c →
          countryCodes.contains (pyUpper c) = false))) ∧
    (∀ a : ActivityRecord, ∀ aid, pyStr a.id = some aid →
      activityTonnes inv a = sumTonnes (inv.all_results.filter
        (fun r => decide (pyStr r.activity_id = some aid)))) ∧
    (∀ a : ActivityRecord, pyStr a.id = none → activityTonnes inv a = 0) := by
  refine ⟨?_, ?_, ?_, ?_, ?_⟩
  · constructor
    · intro h
      have hnil : emissionsMapData inv acts = [] := by
        by_cases hd : (emissionsMapData inv acts).isEmpty
        · exact List.isEmpty_iff.mp hd
        · simp [emissionsMap, hd] at h
      exact ((foldl_mapStep_nil inv acts []).mp hnil).2
    · intro h
      have hnil : emissionsMapData inv acts = [] :=
        (foldl_mapStep_nil inv acts []).mpr ⟨rfl, h⟩
      simp [emissionsMap, hnil]
  · intro ps hps p hp
    have hdata : emissionsMapData inv acts = ps := by
      by_cases hd : (emissionsMapData inv acts).isEmpty
      · simp [emissionsMap, hd] at hps
      · simpa [emissionsMap, hd] using hps
    subst hdata
    have hnd : ((emissionsMapData inv acts).map Prod.fst).Nodup :=
      foldl_mapStep_nodup inv acts [] (by simp)
    have hsum := mem_nodup_sum (emissionsMapData inv acts) hnd p hp
    rw [hsum]
    have hfold := foldl_mapStep_sum inv p.1 acts []
    simpa using hfold
  · intro a
    cases hg : pyStr a.grid_subregion with
    | some g =>
      have hla : locationLabel a =
          (if egridCodes.contains (pyUpper g) then some ("eGRID: " ++ pyUpper g)
           else countryLabel a) := by
        unfold locationLabel
        rw [hg]
      rw [hla]
      by_cases hgc : egridCodes.contains (pyUpper g)
      · rw [if_pos hgc]
        constructor
        · intro h
          exact absurd h (by simp)
        · intro h
          have hfalse := h.1 g rfl
          rw [hfalse] at hgc
          exact absurd hgc (by simp)
      · have hgc' : egridCodes.contains (pyUpper g) = false := by simpa using hgc
        rw [if_neg hgc]
        cases hc : pyStr a.country with
        | some c =>
          have hcl : countryLabel a =
              (if countryCodes.contains (pyUpper c) then some (pyUpper c) else none) := by
            unfold countryLabel
            rw [hc]
          rw [hcl]
          by_cases hcc : countryCodes.contains (pyUpper c)
          · rw [if_pos hcc]
            constructor
            · intro h
              exact absurd h (by simp)
            · intro h
              have hfalse := h.2 c rfl
              rw [hfalse] at hcc
              exact absurd hcc (by simp)
          · have hcc' : countryCodes.contains (pyUpper c) = false := by simpa using hcc
            rw [if_neg hcc]
            constructor
            · intro h
              refine ⟨fun g' hg' => ?_, fun c' hc' => ?_⟩
              · simp only [Option.some.injEq] at hg'
                subst hg'
                exact hgc'
              · simp only [Option.some.injEq] at hc'
                subst hc'
                exact hcc'
            · intro h
              rfl
        | none =>
          have hcl : countryLabel a = none := by
            unfold countryLabel
            rw [hc]
          rw [hcl]
          constructor
          · intro h
            refine ⟨fun g' hg' => ?_, fun c' hc' => ?_⟩
            · simp only [Option.some.injEq] at hg'
              subst hg'
              exact hgc'
            · exact absurd hc' (by simp)
          · intro h
            rfl
    | none =>
      have hla : locationLabel a = countryLabel a := by
        unfold locationLabel
        rw [hg]
      rw [hla]
      cases hc : pyStr a.country with
      | some c =>
        have hcl : countryLabel a =
            (if countryCodes.contains (pyUpper c) then some (pyUpper c) else none) := by
          unfold countryLabel
          rw [hc]
        rw [hcl]
        by_cases hcc : countryCodes.contains (pyUpper c)
        · rw [if_pos hcc]
          constructor
          · intro h
            exact absurd h (by simp)
          · intro h
            have hfalse := h.2 c rfl
            rw [hfalse] at hcc
            exact absurd hcc (by simp)
        · have hcc' : countryCodes.contains (pyUpper c) = false := by simpa using hcc
          rw [if_neg hcc]
          constructor
          · intro h
            refine ⟨fun g' hg' => ?_, fun c' hc' => ?_⟩
            · exact absurd hg' (by simp)
            · simp only [Option.some.injEq] at hc'
              subst hc'
              exact hcc'
          · intro h
            rfl
      | none =>
        have hcl : countryLabel a = none := by
          unfold countryLabel
          rw [hc]
        rw [hcl]
        constructor
        · intro h
          refine ⟨fun g' hg' => ?_, fun c' hc' => ?_⟩
          · exact absurd hg' (by simp)
          · exact absurd hc' (by simp)
        · intro h
          rfl
  · intro a aid h
    simp [activityTonnes, h, resultTonnes]
  · intro a h
    simp [activityTonnes, h]

/-- Witness for C10: one activity with lower-case country code `us` and id
`a1` produces a map with a single `US` point carrying the 5 tonnes of the
Result matched by activity id. -/
theorem c10_emissions_map_witness :
    emissionsMap invUS [actUS] = some [("US", 5)] ∧
    (5 : ℚ) = (([actUS].filter
      (fun a => decide (locationLabel a = some "US"))).map
      (fun a => activityTonnes invUS a)).sum := by
  have hid : pyStr actUS.id = some "a1" := by decide
  have hfl : invUS.all_results.filter
      (fun r => decide (pyStr r.activity_id = some "a1")) = [rUS] := by decide
  have ht : activityTonnes invUS actUS = 5 := by
    simp only [activityTonnes, hid, resultTonnes, hfl]
    simp [sumTonnes, rUS]
  have hl : locationLabel actUS = some "US" := by decide
  have h1 : emissionsMap invUS [actUS] = some [("US", 5)] := by
    simp [emissionsMap, emissionsMapData, mapStep, hl, ht, addTo]
  have h := (c10_emissions_map invUS [actUS]).2.1 [("US", 5)] h1
    ("US", 5) (by simp)
  exact ⟨h1, h⟩

end GhgCalc
